import Mathlib

/-!
Shallow embedding of the LangChain learning repository's reusable pipeline
pieces, translated from the JavaScript sources:

* `src/week1-session1/code/session1-example1.js` — class `HinglishChainPro`
  (`translate`, `translateStreamRaw`, `translateWithRetry`, `chat`,
  `handleError`) together with its constructor defaults;
* `src/week1-session1/code/hinglish-chain.js` — class `HinglishChain`
  (`init`, `translate`) and the zod output schema `hinglishResponseSchema`;
* `src/week1-session1/code/agent-chat.js` — the tool functions
  `analyzeHinglish` and `analyzeSentiment`.

JavaScript numbers are embedded as exact rationals (`ℚ`), strings as Lean
`String`, thrown errors as `Except` error values, and console output as an
explicit log (a `List String`) threaded through each operation, so that
logging side effects are visible in the model.
-/

/-- JavaScript `String.prototype.includes`: substring containment test. -/
def jsIncludes (s sub : String) : Bool :=
  s.data.tails.any (fun t => sub.data.isPrefixOf t)

/-- JavaScript `String.prototype.toLowerCase` (character-wise lowering; the
inputs the sources compare against are ASCII keyword lists). -/
def jsToLowerCase (s : String) : String :=
  ⟨s.data.map Char.toLower⟩

/-- JavaScript `x || d` for an optional numeric option: `undefined` and `0`
are falsy, so both fall back to the default `d`. -/
def jsOrDefault (o : Option Nat) (d : Nat) : Nat :=
  match o with
  | none => d
  | some n => if n = 0 then d else n

/-- A JavaScript `Error` value as the pipeline observes it: its `name`
(`"Error"` for plain errors, `"OutputParserException"` for LangChain parser
failures), its optional Node.js `code` property (`"ECONNREFUSED"`,
`"ETIMEDOUT"`, ...; absent on plain errors), and its `message`. -/
structure JsError where
  name : String
  code : Option String
  message : String
deriving Repr, DecidableEq

/-- A value conforming to `hinglishResponseSchema` (both source files declare
the same five-field zod schema). `confidence` is a number in `[0,1]`,
`alternative_translations` defaults to `[]`, `cultural_notes` is optional. -/
structure HinglishResponse where
  translated_text : String
  detected_language : String
  confidence : ℚ
  alternative_translations : List String
  cultural_notes : Option String
deriving Repr, DecidableEq

/-- Outcome of one call to `HinglishChainPro.translate`: the console lines it
printed and the returned value or thrown error. -/
structure TranslateOutcome where
  log : List String
  result : Except JsError HinglishResponse
deriving Repr

/-- The `console.log` line at the top of `translate`. -/
def translatingLine (text : String) : String :=
  "🔄 Translating: \"" ++ text ++ "\""

/-- `HinglishChainPro.translate` (session1-example1.js lines 190–210), with
the underlying `this.chain.invoke` call abstracted as its outcome
`invokeResult`. On success it logs completion and returns the result; on
failure it maps `ECONNREFUSED` and `OutputParserException` to fresh plain
`Error`s with friendly messages and rethrows anything else unchanged. -/
def HinglishChainPro.translate (invokeResult : Except JsError HinglishResponse)
    (text : String) : TranslateOutcome :=
  match invokeResult with
  | .ok r =>
    { log := [translatingLine text, "✅ Translation complete!"], result := .ok r }
  | .error e =>
    { log := [translatingLine text],
      result := .error
        (if e.code = some "ECONNREFUSED" then
          ⟨"Error", none, "Ollama is not running! Start with: ollama serve"⟩
        else if e.name = "OutputParserException" then
          ⟨"Error", none, "Model returned invalid JSON. Try again."⟩
        else e) }

/-- `HinglishChainPro.handleError` (session1-example1.js lines 335–348):
maps the four Node.js transport error codes to user-friendly messages via
`errorMap[error.code] || error.message`, logs via `console.error`, and
returns a fresh plain `Error` carrying the chosen message. -/
def HinglishChainPro.handleError (e : JsError) : JsError × List String :=
  let message :=
    if e.code = some "ECONNREFUSED" then "⚠️  Cannot connect to Ollama. Is it running?"
    else if e.code = some "ENOTFOUND" then "⚠️  Ollama server not found. Check your setup."
    else if e.code = some "ETIMEDOUT" then "⚠️  Request timed out. Model might be busy."
    else if e.code = some "ECONNRESET" then "⚠️  Connection lost. Please try again."
    else e.message
  (⟨"Error", none, message⟩, ["\n❌ Error: " ++ message])

/-- Configuration produced by the `HinglishChainPro` constructor
(session1-example1.js lines 146–154). -/
structure ProConfig where
  modelName : String
  maxRetries : Nat
  retryDelay : Nat
  timeout : Nat
deriving Repr, DecidableEq

/-- The `HinglishChainPro` constructor: `options.maxRetries || 3`,
`options.retryDelay || 1000`, `options.timeout || 30000`. -/
def HinglishChainPro.mkConfig (modelName : String)
    (maxRetriesOpt retryDelayOpt timeoutOpt : Option Nat) : ProConfig :=
  { modelName := modelName
    maxRetries := jsOrDefault maxRetriesOpt 3
    retryDelay := jsOrDefault retryDelayOpt 1000
    timeout := jsOrDefault timeoutOpt 30000 }

/-- Outcome of `HinglishChainPro.translateWithRetry`: how many attempts were
made, the waits (in ms) performed between attempts, the console log, and the
returned value or thrown error. -/
structure RetryOutcome where
  attempts : Nat
  delays : List Nat
  log : List String
  result : Except JsError HinglishResponse
deriving Repr

/-- The terminal error message built by `translateWithRetry`:
`Failed after ${this.maxRetries} attempts: ${lastError.message}`. When the
loop body never ran, `lastError` is `undefined` and reading `.message`
raises a `TypeError` (unreachable for configurations built by the
constructor, whose `maxRetries` is at least 1). -/
def failedAfterMsg (maxRetries : Nat) (lastError : Option JsError) : JsError :=
  match lastError with
  | some e => ⟨"Error", none,
      "Failed after " ++ toString maxRetries ++ " attempts: " ++ e.message⟩
  | none => ⟨"TypeError", none,
      "Cannot read properties of undefined (reading message)"⟩

/-- The retry loop body of `translateWithRetry` (session1-example1.js lines
261–289). `model attempt` is the outcome of `this.chain.invoke` during the
given attempt; each attempt goes through `HinglishChainPro.translate`.
`fuel` only bounds the recursion; the loop itself exits when
`attempt > maxRetries`. -/
def HinglishChainPro.retryGo (maxRetries retryDelay : Nat)
    (model : Nat → Except JsError HinglishResponse) (text : String) :
    Nat → Nat → List String → List Nat → Option JsError → RetryOutcome
  | 0, attempt, logAcc, delaysAcc, lastError =>
    { attempts := attempt - 1, delays := delaysAcc, log := logAcc,
      result := .error (failedAfterMsg maxRetries lastError) }
  | fuel + 1, attempt, logAcc, delaysAcc, lastError =>
    if attempt > maxRetries then
      { attempts := attempt - 1, delays := delaysAcc, log := logAcc,
        result := .error (failedAfterMsg maxRetries lastError) }
    else
      let attemptLine := "🔄 Attempt " ++ toString attempt ++ "/" ++
        toString maxRetries ++ "..."
      let t := HinglishChainPro.translate (model attempt) text
      let logAcc := logAcc ++ [attemptLine] ++ t.log
      match t.result with
      | .ok r =>
        { attempts := attempt, delays := delaysAcc, log := logAcc, result := .ok r }
      | .error e =>
        let logAcc := logAcc ++
          ["❌ Attempt " ++ toString attempt ++ " failed: " ++ e.message]
        if e.name = "OutputParserException" then
          { attempts := attempt, delays := delaysAcc, log := logAcc,
            result := .error e }
        else if attempt < maxRetries then
          HinglishChainPro.retryGo maxRetries retryDelay model text fuel
            (attempt + 1)
            (logAcc ++ ["⏳ Retrying in " ++ toString retryDelay ++ "ms..."])
            (delaysAcc ++ [retryDelay]) (some e)
        else
          HinglishChainPro.retryGo maxRetries retryDelay model text fuel
            (attempt + 1) logAcc delaysAcc (some e)

/-- `HinglishChainPro.translateWithRetry`: run the loop from attempt 1 with
enough fuel for `maxRetries` iterations plus the final exit check. -/
def HinglishChainPro.translateWithRetry (cfg : ProConfig)
    (model : Nat → Except JsError HinglishResponse) (text : String) :
    RetryOutcome :=
  HinglishChainPro.retryGo cfg.maxRetries cfg.retryDelay model text
    (cfg.maxRetries + 1) 1 [] [] none

/-- A value delivered to the streaming sink by `translateStreamRaw`. The
source computes `const content = chunk.content || chunk`: for a chunk whose
`content` string is truthy (nonempty) the sink receives that string; for a
chunk with empty `content` the `||` falls back to the chunk object itself. -/
inductive StreamToken where
  | str (s : String)
  | chunkObj (content : String)
deriving Repr, DecidableEq

/-- JavaScript's default string coercion of a message-chunk object, used when
`fullText += content` appends a chunk object rather than a string (the
LangChain message chunk class does not override `Object.prototype.toString`). -/
def chunkObjCoercion : String := "[object Object]"

/-- `const content = chunk.content || chunk` for a chunk with the given
`content` string: the empty string is falsy in JavaScript. -/
def streamContent (content : String) : StreamToken :=
  if content = "" then .chunkObj content else .str content

/-- The text that `fullText += content` appends for a delivered token. -/
def streamTokenText : StreamToken → String
  | .str s => s
  | .chunkObj _ => chunkObjCoercion

/-- Outcome of `HinglishChainPro.translateStreamRaw`: the values passed to
the `onToken` sink (in call order), the console log, and the returned
`{ translated_text: fullText }`. -/
structure StreamOutcome where
  delivered : List StreamToken
  log : List String
  translated_text : String
deriving Repr, DecidableEq

/-- `HinglishChainPro.translateStreamRaw` (session1-example1.js lines
216–255) with the model collaborator's stream abstracted as the list of
chunk `content` strings, in arrival order, and a caller-supplied `onToken`
sink. The loop body appends each extracted content to `fullText` and calls
the sink with it, one call per chunk, in order. -/
def HinglishChainPro.translateStreamRaw (chunks : List String) (text : String) :
    StreamOutcome :=
  let tokens := chunks.map streamContent
  { delivered := tokens
    log := ["🔄 Streaming translation: \"" ++ text ++ "\"\n", "\n✅ Stream complete!"]
    translated_text := String.join (tokens.map streamTokenText) }

/-- A JSON-like candidate value as produced by parsing the model's raw
output, fed to schema validation. -/
inductive Json where
  | str (s : String)
  | num (q : ℚ)
  | boolean (b : Bool)
  | arr (xs : List Json)
  | obj (fields : List (String × Json))
  | null

/-- A zod validation issue, keeping the parts the spec's error taxonomy
cares about: the kind of violation and the offending field. -/
inductive ZodIssue where
  | invalidType (field : String) (expected : String)
  | tooSmall (field : String) (minimum : ℚ)
  | tooBig (field : String) (maximum : ℚ)
  | notAnObject
deriving Repr, DecidableEq

/-- Field lookup in a JSON object (first binding wins, as in a parsed
JavaScript object). -/
def lookupField (fields : List (String × Json)) (name : String) : Option Json :=
  (fields.find? (fun p => p.fst = name)).map (fun p => p.snd)

/-- Validate a required `z.string()` field. -/
def parseStringField (fields : List (String × Json)) (name : String) :
    Except (List ZodIssue) String :=
  match lookupField fields name with
  | some (.str s) => .ok s
  | _ => .error [.invalidType name "string"]

/-- Validate a `z.number().min(lo).max(hi)` field with an inclusive range. -/
def parseNumberField (fields : List (String × Json)) (name : String)
    (lo hi : ℚ) : Except (List ZodIssue) ℚ :=
  match lookupField fields name with
  | some (.num q) =>
    if q < lo then .error [.tooSmall name lo]
    else if hi < q then .error [.tooBig name hi]
    else .ok q
  | _ => .error [.invalidType name "number"]

/-- Extract the strings of a JSON array all of whose elements are strings;
`none` when some element is not a string. -/
def asStringList : List Json → Option (List String)
  | [] => some []
  | .str s :: rest => (asStringList rest).map (fun ss => s :: ss)
  | _ => none

/-- Validate a `z.array(z.string()).default([])` field: a missing field is
defaulted to the empty list, not an error. -/
def parseStringArrayField (fields : List (String × Json)) (name : String) :
    Except (List ZodIssue) (List String) :=
  match lookupField fields name with
  | none => .ok []
  | some (.arr xs) =>
    match asStringList xs with
    | some ss => .ok ss
    | none => .error [.invalidType name "string array"]
  | some _ => .error [.invalidType name "array"]

/-- Validate a `z.string().optional()` field: a missing field is left absent,
not an error. -/
def parseOptStringField (fields : List (String × Json)) (name : String) :
    Except (List ZodIssue) (Option String) :=
  match lookupField fields name with
  | none => .ok none
  | some (.str s) => .ok (some s)
  | some _ => .error [.invalidType name "string"]

/-- Combine two field validations, collecting the issues of both (zod
reports every failing field, not just the first). -/
def zipIssues {α β : Type} (a : Except (List ZodIssue) α)
    (b : Except (List ZodIssue) β) : Except (List ZodIssue) (α × β) :=
  match a, b with
  | .ok x, .ok y => .ok (x, y)
  | .error i, .ok _ => .error i
  | .ok _, .error j => .error j
  | .error i, .error j => .error (i ++ j)

/-- `hinglishResponseSchema` (hinglish-chain.js lines 19–25 and
session1-example1.js lines 137–143): validation of a candidate against the
five-field zod object schema. -/
def hinglishResponseSchema (j : Json) : Except (List ZodIssue) HinglishResponse :=
  match j with
  | .obj fields =>
    match zipIssues (parseStringField fields "translated_text")
        (zipIssues (parseStringField fields "detected_language")
          (zipIssues (parseNumberField fields "confidence" 0 1)
            (zipIssues (parseStringArrayField fields "alternative_translations")
              (parseOptStringField fields "cultural_notes")))) with
    | .ok (tt, dl, conf, alts, notes) => .ok ⟨tt, dl, conf, alts, notes⟩
    | .error issues => .error issues
  | _ => .error [.notAnObject]

/-- A value of the spec's schema round-trip scenario schema
`\x7btranslated_text: string, confidence: number[0,1]\x7d`. -/
structure ScenarioValue where
  translated_text : String
  confidence : ℚ
deriving Repr, DecidableEq

/-- Modelled from the spec: the two-field scenario schema of §8
(`\x7btranslated_text: string, confidence: number[0,1]\x7d`). No source file
declares this schema; it is the spec's own instance of `StructuredSchema`,
validated with the same zod field semantics the sources use. -/
def scenarioSchema (j : Json) : Except (List ZodIssue) ScenarioValue :=
  match j with
  | .obj fields =>
    match zipIssues (parseStringField fields "translated_text")
        (parseNumberField fields "confidence" 0 1) with
    | .ok (tt, conf) => .ok ⟨tt, conf⟩
    | .error issues => .error issues
  | _ => .error [.notAnObject]

/-- The chain value built by `init`: `prompt.pipe(llm).pipe(parser)` with the
`ChatOllama` configuration used to build it. -/
structure BuiltChain where
  baseUrl : String
  model : String
  temperature : ℚ
deriving Repr, DecidableEq

/-- The mutable state of a `HinglishChain` instance (hinglish-chain.js lines
27–31): the model name and the lazily built chain (`null` before `init`). -/
structure HinglishChainState where
  modelName : String
  chain : Option BuiltChain
deriving Repr, DecidableEq

/-- `HinglishChain.init` (hinglish-chain.js lines 34–61): `if (this.chain)
return;` then build the chain with temperature 0.3. -/
def HinglishChain.init (s : HinglishChainState) : HinglishChainState :=
  match s.chain with
  | some _ => s
  | none => { s with chain := some ⟨"http://localhost:11434", s.modelName, 3/10⟩ }

/-- `HinglishChain.translate` (hinglish-chain.js lines 64–67), restricted to
its state effect: `await this.init()` then invoke `this.chain`. Returns the
post-call state and the chain value used for the invocation. -/
def HinglishChain.translate (s : HinglishChainState) :
    HinglishChainState × Option BuiltChain :=
  let s' := HinglishChain.init s
  (s', s'.chain)

/-- The mutable state of a `HinglishChainPro` instance (session1-example1.js
lines 146–154). -/
structure HinglishChainProState where
  modelName : String
  chain : Option BuiltChain
  maxRetries : Nat
  retryDelay : Nat
  timeout : Nat
deriving Repr, DecidableEq

/-- `HinglishChainPro.init` (session1-example1.js lines 157–185): `if
(this.chain) return;` then build the chain with temperature 0.3. -/
def HinglishChainPro.init (s : HinglishChainProState) : HinglishChainProState :=
  match s.chain with
  | some _ => s
  | none => { s with chain := some ⟨"http://localhost:11434", s.modelName, 3/10⟩ }

/-- The Hinglish word dictionary of `analyzeHinglish` (agent-chat.js lines
36–53). The JavaScript object literal repeats some keys (`hai`, `acha`,
`nahi`, `hmm`, `yaar`); per JavaScript semantics a key keeps its first
position in `Object.keys` order while the last written value wins. -/
def hinglishDictionary : List (String × String) :=
  [("kya", "what"), ("baat", "thing/matter"), ("hai", "is"),
   ("yaar", "friend"), ("mast", "awesome"), ("thak", "tired"),
   ("gaya", "gone/became"), ("kar", "do"), ("raha", "doing"),
   ("acha", "okay"), ("bohot", "very"), ("nahi", "no"),
   ("kuch", "something"), ("samajh", "understand"), ("aa", "come"),
   ("rhi", "doing (fem)"), ("rha", "doing (masc)"),
   ("ka", "what/of"), ("kahan", "where"), ("kab", "when"),
   ("kaise", "how"), ("kyun", "why"), ("kitna", "how much"),
   ("badiya", "great"), ("badhiya", "great"), ("lage", "seem/feel"),
   ("sahi", "correct/good"), ("galat", "wrong"), ("han", "yes"),
   ("hmm", "mhm"), ("haha", "laughter"), ("lol", "lol"),
   ("arre", "oh hey"), ("chal", "let\x27s go/move"), ("chalo", "come on"),
   ("sun", "listen"), ("bol", "speak/say"), ("bolo", "please say"),
   ("theek", "okay/fine"), ("bas", "enough/stop"), ("arey", "oh hey"),
   ("dost", "friend"), ("bhai", "brother/friend")]

/-- A JavaScript regex word character (`\w` is ASCII `[A-Za-z0-9_]`). -/
def isWordChar (c : Char) : Bool :=
  c.isAlpha || c.isDigit || c = '_'

/-- Case-insensitive prefix match of `word` against `text`. -/
def matchesCI : List Char → List Char → Bool
  | [], _ => true
  | _ :: _, [] => false
  | w :: ws, c :: cs => (w.toLower = c.toLower) && matchesCI ws cs

/-- One scan of `text.replace(new RegExp("\\b" ++ word ++ "\\b", "gi"), repl)`:
left-to-right, non-overlapping, case-insensitive whole-word replacement.
`prev` is the original character before the current position (for the
leading `\b`); `fuel` bounds the recursion (one unit per position). -/
def replaceScan (word repl : List Char) :
    Nat → Option Char → List Char → List Char
  | 0, _, text => text
  | _ + 1, _, [] => []
  | fuel + 1, prev, c :: cs =>
    let boundaryBefore := match prev with
      | none => true
      | some p => !isWordChar p
    if boundaryBefore && !word.isEmpty && matchesCI word (c :: cs) then
      let consumed := (c :: cs).take word.length
      let rest := (c :: cs).drop word.length
      let boundaryAfter := match rest with
        | [] => true
        | r :: _ => !isWordChar r
      if boundaryAfter then
        repl ++ replaceScan word repl fuel consumed.getLast? rest
      else
        c :: replaceScan word repl fuel (some c) cs
    else
      c :: replaceScan word repl fuel (some c) cs

/-- `text.replace(new RegExp("\\b" ++ word ++ "\\b", "gi"), repl)` on
strings. -/
def replaceWordAllCI (text word repl : String) : String :=
  ⟨replaceScan word.data repl.data (text.data.length + 1) none text.data⟩

/-- `dictionary[word]` for a detected word (always present, since detected
words are drawn from the dictionary keys). -/
def dictionaryValue (word : String) : String :=
  ((hinglishDictionary.find? (fun p => p.fst = word)).map (fun p => p.snd)).getD ""

/-- The result record of `analyzeHinglish`. -/
structure HinglishAnalysis where
  is_hinglish : Bool
  detected_words : List String
  translation : String
  confidence : ℚ
deriving Repr, DecidableEq

/-- The dictionary words detected in the lowercased input:
`Object.keys(dictionary).filter(word => lowerInput.includes(word))`. -/
def detectedHinglishWords (input : String) : List String :=
  (hinglishDictionary.map (fun p => p.fst)).filter
    (fun w => jsIncludes (jsToLowerCase input) w)

/-- `analyzeHinglish` (agent-chat.js lines 35–77): detect dictionary words in
the lowercased input, replace each whole word (case-insensitively, globally)
by its dictionary value, and score confidence as
`Math.min(hinglishWords.length * 0.2 + 0.5, 0.9)`. -/
def analyzeHinglish (input : String) : HinglishAnalysis :=
  let hinglishWords := detectedHinglishWords input
  let isHinglish := hinglishWords.length > 0
  let translation := hinglishWords.foldl
    (fun t w => replaceWordAllCI t w (dictionaryValue w)) input
  { is_hinglish := isHinglish
    detected_words := hinglishWords
    translation := if isHinglish then translation else input
    confidence := min ((hinglishWords.length : ℚ) * (1/5) + 1/2) (9/10) }

/-- The positive keyword list of `analyzeSentiment` (agent-chat.js lines
83–84). -/
def positiveWords : List String :=
  ["happy", "great", "mast", "good", "awesome", "excited",
   "love", "like", "enjoy", "badiya", "badhiya", "sahi", "acha", "maza", "fun"]

/-- The negative keyword list of `analyzeSentiment` (agent-chat.js lines
85–86). -/
def negativeWords : List String :=
  ["sad", "bad", "thak", "tired", "hate", "angry", "upset",
   "worried", "stressed", "tension", "problem", "issue", "nahi", "galat"]

/-- The emphasis keyword list of `analyzeSentiment` (agent-chat.js line 87). -/
def emphasisWords : List String :=
  ["bohot", "bahut", "kitna", "very", "so", "too"]

/-- `words.some(w => text.includes(w))` on the lowercased input. -/
def hasKeyword (words : List String) (input : String) : Bool :=
  words.any (fun w => jsIncludes (jsToLowerCase input) w)

/-- The result record of `analyzeSentiment`. -/
structure SentimentResult where
  sentiment : String
  intensity : Nat
  confidence : ℚ
  should_celebrate : Bool
  should_comfort : Bool
deriving Repr, DecidableEq

/-- `analyzeSentiment` (agent-chat.js lines 80–111): keyword-based sentiment
with fixed confidence 0.75, celebration when positive and intensity above 6,
comfort when negative and intensity above 4. -/
def analyzeSentiment (input : String) : SentimentResult :=
  let hasPositive := hasKeyword positiveWords input
  let hasNegative := hasKeyword negativeWords input
  let hasEmphasis := hasKeyword emphasisWords input
  let si : String × Nat :=
    if hasPositive && !hasNegative then
      ("positive", if hasEmphasis then 8 else 6)
    else if hasNegative && !hasPositive then
      ("negative", if hasEmphasis then 7 else 5)
    else
      ("neutral", 5)
  { sentiment := si.fst
    intensity := si.snd
    confidence := 3/4
    should_celebrate := si.fst = "positive" && si.snd > 6
    should_comfort := si.fst = "negative" && si.snd > 4 }

/-- The configuration the demo builds: model `kimi-k2.5:cloud` with all
retry options left to their defaults. -/
def defaultProConfig : ProConfig :=
  HinglishChainPro.mkConfig "kimi-k2.5:cloud" none none none

/-- A model collaborator whose every `chain.invoke` call fails with a
transport-class timeout error (`code: "ETIMEDOUT"`) carrying message `m`. -/
def alwaysTimeoutModel (m : String) : Nat → Except JsError HinglishResponse :=
  fun _ => .error ⟨"Error", some "ETIMEDOUT", m⟩

/-- A model collaborator whose every `chain.invoke` call fails with a
LangChain schema-validation failure (`name: "OutputParserException"`). -/
def alwaysParserFailModel : Nat → Except JsError HinglishResponse :=
  fun _ => .error ⟨"OutputParserException", none, "Failed to parse. Text: Sorry."⟩

/-- Outcome of one call to `HinglishChainPro.chat`: the console lines it
printed and the returned reply content or thrown error. -/
structure ChatOutcome where
  log : List String
  result : Except JsError String
deriving Repr

/-- `HinglishChainPro.chat` (session1-example1.js lines 295–330), with the
underlying `chain.invoke` call abstracted as its outcome: on success the
response's `content` is returned (no logging of its own); on failure the
catch block runs `throw this.handleError(error)`, so the caller receives
`handleError`'s fresh plain `Error` and its `console.error` line is
printed. -/
def HinglishChainPro.chat (invokeResult : Except JsError String) : ChatOutcome :=
  match invokeResult with
  | .ok content => { log := [], result := .ok content }
  | .error e =>
    { log := (HinglishChainPro.handleError e).2,
      result := .error (HinglishChainPro.handleError e).1 }

/-- Outcome of a full run of `translateStreamRaw`, catch path included. -/
structure StreamRunOutcome where
  delivered : List StreamToken
  log : List String
  result : Except JsError String
deriving Repr

/-- The full `HinglishChainPro.translateStreamRaw` (session1-example1.js
lines 216–255) including its catch path: `streamResult` abstracts acquiring
and draining the collaborator's stream, yielding either the chunk contents
in arrival order or the error the stream raised. On success the loop of
`HinglishChainPro.translateStreamRaw` runs and `{ translated_text }` is
returned; on failure the catch block runs `throw this.handleError(error)`
(the opening `console.log` at line 219 has already printed). -/
def HinglishChainPro.translateStreamRawRun
    (streamResult : Except JsError (List String)) (text : String) :
    StreamRunOutcome :=
  match streamResult with
  | .ok chunks =>
    let o := HinglishChainPro.translateStreamRaw chunks text
    { delivered := o.delivered, log := o.log, result := .ok o.translated_text }
  | .error e =>
    { delivered := []
      log := ["🔄 Streaming translation: \"" ++ text ++ "\"\n"] ++
        (HinglishChainPro.handleError e).2
      result := .error (HinglishChainPro.handleError e).1 }

/-- Claim C1: with the default retry policy (`maxAttempts` 3, fixed delay
1000ms) and a collaborator whose every call fails with a transport-class
timeout, `translateWithRetry` makes exactly 3 attempts, waits the configured
delay between consecutive attempts only (two waits for three attempts, none
after the last), and surfaces a retries-exhausted error carrying the attempt
count 3 and the last error's message. -/
theorem translateWithRetry_timeout_exhausts_three_attempts (m : String) :
    defaultProConfig.maxRetries = 3 ∧
    defaultProConfig.retryDelay = 1000 ∧
    (HinglishChainPro.translateWithRetry defaultProConfig
      (alwaysTimeoutModel m) "hello").attempts = 3 ∧
    (HinglishChainPro.translateWithRetry defaultProConfig
      (alwaysTimeoutModel m) "hello").delays = [1000, 1000] ∧
    (HinglishChainPro.translateWithRetry defaultProConfig
      (alwaysTimeoutModel m) "hello").result =
      .error ⟨"Error", none, "Failed after 3 attempts: " ++ m⟩ :=
  ⟨rfl, rfl, rfl, rfl, rfl⟩

/-- Claim C2: the code violates the claim. A collaborator whose every
response fails schema validation makes `translateWithRetry` run all 3
attempts, not 1: `translate` rewraps the `OutputParserException` into a
plain `Error` ("Model returned invalid JSON. Try again."), so the retry
loop's `error.name === "OutputParserException"` guard never matches and the
validation error is retried and finally surfaced wrapped in the
retries-exhausted message, not unwrapped. -/
theorem translateWithRetry_parser_error_retries_three_times :
    (HinglishChainPro.translateWithRetry defaultProConfig
      alwaysParserFailModel "hello").attempts = 3 ∧
    (HinglishChainPro.translateWithRetry defaultProConfig
      alwaysParserFailModel "hello").delays = [1000, 1000] ∧
    (HinglishChainPro.translateWithRetry defaultProConfig
      alwaysParserFailModel "hello").result =
      .error ⟨"Error", none,
        "Failed after 3 attempts: Model returned invalid JSON. Try again."⟩ :=
  ⟨rfl, rfl, rfl⟩

/-- Claim C3, counterexample: with an empty increment in the stream, the
`chunk.content || chunk` fallback delivers the chunk object (not the empty
increment string) to the sink, and the assembled text is not the
concatenation of the increments. -/
theorem translateStreamRaw_empty_increment_cex :
    (HinglishChainPro.translateStreamRaw ["Hel", ""] "x").delivered ≠
      ["Hel", ""].map StreamToken.str ∧
    (HinglishChainPro.translateStreamRaw ["Hel", ""] "x").translated_text ≠
      String.join ["Hel", ""] := by
  exact ⟨by decide, by decide⟩

/-- Claim C3, amended: when the model collaborator streams increments all of
which are nonempty, `translateStreamRaw` invokes the `onToken` sink exactly
once per increment, in arrival order and with the increment itself, and the
returned `translated_text` is the left-to-right concatenation of the
increments. (An empty increment instead trips the `chunk.content || chunk`
fallback: the sink receives the chunk object and the assembled text gains
the object's string coercion.) -/
theorem translateStreamRaw_nonempty_order_concat (chunks : List String)
    (text : String) (h : ∀ c ∈ chunks, c ≠ "") :
    (HinglishChainPro.translateStreamRaw chunks text).delivered =
      chunks.map StreamToken.str ∧
    (HinglishChainPro.translateStreamRaw chunks text).translated_text =
      String.join chunks := by
  have hmap : chunks.map streamContent = chunks.map StreamToken.str := by
    induction chunks with
    | nil => rfl
    | cons c cs ih =>
      have hc : c ≠ "" := h c (List.mem_cons_self c cs)
      simp only [List.map_cons, streamContent, if_neg hc]
      exact congrArg _ (ih (fun x hx => h x (List.mem_cons_of_mem c hx)))
  constructor
  · exact hmap
  · show String.join ((chunks.map streamContent).map streamTokenText) = _
    rw [hmap, List.map_map]
    have : (streamTokenText ∘ StreamToken.str) = id := rfl
    rw [this, List.map_id]

/-- Witness for C3's amended theorem at the spec's concrete stream
`["Hel","lo, ","world"]`: three sink calls in order and assembled text
`"Hello, world"`. -/
theorem translateStreamRaw_concrete_witness :
    (HinglishChainPro.translateStreamRaw ["Hel", "lo, ", "world"] "x").delivered =
      [StreamToken.str "Hel", StreamToken.str "lo, ", StreamToken.str "world"] ∧
    (HinglishChainPro.translateStreamRaw ["Hel", "lo, ", "world"] "x").translated_text =
      "Hello, world" :=
  translateStreamRaw_nonempty_order_concat ["Hel", "lo, ", "world"] "x"
    (by decide)

/-- Claim C4: each of the four transport error codes (`ECONNREFUSED`,
`ENOTFOUND`, `ETIMEDOUT`, `ECONNRESET`) is recognized by `handleError` and
mapped to its own distinct message; an error without a transport code (such
as a validation error) keeps its own message, so transport and validation
failures are never merged into one generic message. In `translate`, the
connectivity failure and the wrong-shape failure likewise map to distinct
typed errors. -/
theorem handleError_transport_mapping_distinct :
    (HinglishChainPro.handleError ⟨"Error", some "ECONNREFUSED", "m"⟩).1.message =
      "⚠️  Cannot connect to Ollama. Is it running?" ∧
    (HinglishChainPro.handleError ⟨"Error", some "ENOTFOUND", "m"⟩).1.message =
      "⚠️  Ollama server not found. Check your setup." ∧
    (HinglishChainPro.handleError ⟨"Error", some "ETIMEDOUT", "m"⟩).1.message =
      "⚠️  Request timed out. Model might be busy." ∧
    (HinglishChainPro.handleError ⟨"Error", some "ECONNRESET", "m"⟩).1.message =
      "⚠️  Connection lost. Please try again." ∧
    ["⚠️  Cannot connect to Ollama. Is it running?",
     "⚠️  Ollama server not found. Check your setup.",
     "⚠️  Request timed out. Model might be busy.",
     "⚠️  Connection lost. Please try again."].Nodup ∧
    (∀ e : JsError, e.code = none →
      (HinglishChainPro.handleError e).1.message = e.message) ∧
    (HinglishChainPro.translate
      (.error ⟨"Error", some "ECONNREFUSED", "m"⟩) "t").result =
      .error ⟨"Error", none, "Ollama is not running! Start with: ollama serve"⟩ ∧
    (HinglishChainPro.translate
      (.error ⟨"OutputParserException", none, "m"⟩) "t").result =
      .error ⟨"Error", none, "Model returned invalid JSON. Try again."⟩ ∧
    ("Ollama is not running! Start with: ollama serve" : String) ≠
      "Model returned invalid JSON. Try again." := by
  refine ⟨rfl, rfl, rfl, rfl, by decide, ?_, rfl, rfl, by decide⟩
  intro e he
  simp [HinglishChainPro.handleError, he]

/-- Witness for C4: a validation-style error with no transport code passes
through `handleError` with its own message intact. -/
theorem handleError_passthrough_witness :
    (HinglishChainPro.handleError
      ⟨"OutputParserException", none, "Failed to parse output"⟩).1.message =
      "Failed to parse output" :=
  handleError_transport_mapping_distinct.2.2.2.2.2.1
    ⟨"OutputParserException", none, "Failed to parse output"⟩ rfl

/-- Claim C5, counterexample: at a concrete failing `translate` call (Ollama
down) the pipeline both prints console output of its own and raises a plain
generic `Error` (JavaScript's base class, `name` `"Error"`), refuting both
the no-logging part and the narrowly-typed-never-generic part of the
claim. -/
theorem translate_logging_cex :
    (HinglishChainPro.translate
      (.error ⟨"Error", some "ECONNREFUSED", "connect ECONNREFUSED 127.0.0.1:11434"⟩)
      "namaste").log ≠ [] ∧
    (HinglishChainPro.translate
      (.error ⟨"Error", some "ECONNREFUSED", "connect ECONNREFUSED 127.0.0.1:11434"⟩)
      "namaste").result =
      .error ⟨"Error", none, "Ollama is not running! Start with: ollama serve"⟩ :=
  ⟨by decide, rfl⟩

/-- `translate` never raises an error whose `name` is
`"OutputParserException"`: both rewrap branches produce plain `Error`s and
the rethrow branch only runs when the name check failed. -/
theorem translate_error_never_parser_named (r : Except JsError HinglishResponse)
    (text : String) (e : JsError)
    (h : (HinglishChainPro.translate r text).result = .error e) :
    ¬ e.name = "OutputParserException" := by
  cases r with
  | ok v => simp [HinglishChainPro.translate] at h
  | error e0 =>
    simp only [HinglishChainPro.translate, Except.error.injEq] at h
    split_ifs at h with h1 h2
    · subst h
      decide
    · subst h
      decide
    · subst h
      exact h2

/-- The retry loop only appends to its log accumulator: the accumulator is a
prefix of the final log. -/
theorem retryGo_log_extends (maxR delay : Nat)
    (model : Nat → Except JsError HinglishResponse) (text : String) :
    ∀ (fuel attempt : Nat) (logAcc : List String) (delaysAcc : List Nat)
      (lastE : Option JsError),
      logAcc <+: (HinglishChainPro.retryGo maxR delay model text fuel attempt
        logAcc delaysAcc lastE).log := by
  have step : ∀ {l m : List String} (z : List String), l <+: m → l <+: m ++ z :=
    fun z h => h.trans (List.prefix_append _ z)
  intro fuel
  induction fuel with
  | zero =>
    intro attempt logAcc delaysAcc lastE
    simp [HinglishChainPro.retryGo]
  | succ fuel ih =>
    intro attempt logAcc delaysAcc lastE
    by_cases hgt : attempt > maxR
    · simp [HinglishChainPro.retryGo, hgt]
    · simp only [HinglishChainPro.retryGo, if_neg hgt]
      rcases hres : (HinglishChainPro.translate (model attempt) text).result with te | r
      · dsimp only
        by_cases hname : te.name = "OutputParserException"
        · simp only [if_pos hname]
          exact step _ (step _ (step _ List.prefix_rfl))
        · simp only [if_neg hname]
          by_cases hlt : attempt < maxR
          · simp only [if_pos hlt]
            exact (step _ (step _ (step _ (step _ List.prefix_rfl)))).trans
              (ih (attempt + 1) _ _ (some te))
          · simp only [if_neg hlt]
            exact (step _ (step _ (step _ List.prefix_rfl))).trans
              (ih (attempt + 1) _ _ (some te))
      · dsimp only
        exact step _ (step _ List.prefix_rfl)

/-- When the loop still has fuel and budget, the attempt line for the
current attempt makes it into the final log (right after the accumulator),
so the final log is never empty. -/
theorem retryGo_log_has_attempt_line (maxR delay : Nat)
    (model : Nat → Except JsError HinglishResponse) (text : String)
    (fuel attempt : Nat) (logAcc : List String) (delaysAcc : List Nat)
    (lastE : Option JsError) (hle : ¬ attempt > maxR) :
    (logAcc ++ ["🔄 Attempt " ++ toString attempt ++ "/" ++
        toString maxR ++ "..."]) <+:
      (HinglishChainPro.retryGo maxR delay model text (fuel + 1) attempt
        logAcc delaysAcc lastE).log := by
  have step : ∀ {l m : List String} (z : List String), l <+: m → l <+: m ++ z :=
    fun z h => h.trans (List.prefix_append _ z)
  simp only [HinglishChainPro.retryGo, if_neg hle]
  rcases hres : (HinglishChainPro.translate (model attempt) text).result with te | r
  · dsimp only
    by_cases hname : te.name = "OutputParserException"
    · simp only [if_pos hname]
      exact step _ (step _ List.prefix_rfl)
    · simp only [if_neg hname]
      by_cases hlt : attempt < maxR
      · simp only [if_pos hlt]
        exact (step _ (step _ (step _ List.prefix_rfl))).trans
          (retryGo_log_extends maxR delay model text fuel (attempt + 1) _ _ (some te))
      · simp only [if_neg hlt]
        exact (step _ (step _ List.prefix_rfl)).trans
          (retryGo_log_extends maxR delay model text fuel (attempt + 1) _ _ (some te))
  · dsimp only
    exact step _ List.prefix_rfl

/-- Any error the retry loop surfaces is a plain `Error`: the terminal
retries-exhausted error is built as one, and the immediate-rethrow branch
for parser exceptions can never fire because `translate` already renamed
them. The precondition rules out exhaustion before any attempt ran. -/
theorem retryGo_error_is_plain (maxR delay : Nat)
    (model : Nat → Except JsError HinglishResponse) (text : String) :
    ∀ (fuel attempt : Nat) (logAcc : List String) (delaysAcc : List Nat)
      (lastE : Option JsError) (e : JsError),
      (lastE = none → attempt ≤ maxR ∧ 1 ≤ fuel) →
      (HinglishChainPro.retryGo maxR delay model text fuel attempt logAcc
        delaysAcc lastE).result = .error e →
      e.name = "Error" := by
  intro fuel
  induction fuel with
  | zero =>
    intro attempt logAcc delaysAcc lastE e hinv h
    cases lastE with
    | none => exact absurd (hinv rfl).2 (by omega)
    | some e0 =>
      simp only [HinglishChainPro.retryGo, failedAfterMsg,
        Except.error.injEq] at h
      rw [← h]
  | succ fuel ih =>
    intro attempt logAcc delaysAcc lastE e hinv h
    by_cases hgt : attempt > maxR
    · cases lastE with
      | none => exact absurd (hinv rfl).1 (by omega)
      | some e0 =>
        simp only [HinglishChainPro.retryGo, if_pos hgt, failedAfterMsg,
          Except.error.injEq] at h
        rw [← h]
    · simp only [HinglishChainPro.retryGo, if_neg hgt] at h
      rcases hres : (HinglishChainPro.translate (model attempt) text).result with te | r
      · have hname : ¬ te.name = "OutputParserException" :=
          translate_error_never_parser_named (model attempt) text te hres
        simp only [hres] at h
        rw [if_neg hname] at h
        by_cases hlt : attempt < maxR
        · rw [if_pos hlt] at h
          exact ih (attempt + 1) _ _ (some te) e (by simp) h
        · rw [if_neg hlt] at h
          exact ih (attempt + 1) _ _ (some te) e (by simp) h
      · simp [hres] at h

/-- Claim C5, amended: the pipeline never crashes the host process — every
failure path surfaces an `Error` value to the caller: `translate`,
`translateStreamRaw` (catch path included) and `chat` fail exactly when
their collaborator call failed, and any error `translateWithRetry` raises
under the default policy is a plain `Error`. But, contrary to the claim, it
does perform logging side effects of its own (`translate`,
`translateStreamRaw` and `translateWithRetry` always print progress lines,
and `chat`'s failure path prints via `handleError`'s `console.error`), and
the errors raised are plain generic `Error` values (`name` `"Error"`)
distinguished only by their message, not narrowly-typed error values. -/
theorem pipeline_logging_and_typed_errors
    (r : Except JsError HinglishResponse) (rc : Except JsError String)
    (sr : Except JsError (List String)) (text : String)
    (model : Nat → Except JsError HinglishResponse) :
    (HinglishChainPro.translate r text).log ≠ [] ∧
    (HinglishChainPro.translate r text).result.isOk = r.isOk ∧
    (HinglishChainPro.translateStreamRawRun sr text).log ≠ [] ∧
    (HinglishChainPro.translateStreamRawRun sr text).result.isOk = sr.isOk ∧
    (HinglishChainPro.chat rc).result.isOk = rc.isOk ∧
    (∀ e : JsError, rc = .error e →
      (HinglishChainPro.chat rc).result =
        .error (HinglishChainPro.handleError e).1 ∧
      (HinglishChainPro.handleError e).1.name = "Error" ∧
      (HinglishChainPro.chat rc).log ≠ []) ∧
    (HinglishChainPro.translateWithRetry defaultProConfig model text).log ≠ [] ∧
    (∀ e : JsError,
      (HinglishChainPro.translateWithRetry defaultProConfig model text).result =
        .error e → e.name = "Error") := by
  refine ⟨?_, ?_, ?_, ?_, ?_, ?_, ?_, ?_⟩
  · cases r <;> simp [HinglishChainPro.translate]
  · cases r <;> rfl
  · cases sr <;>
      simp [HinglishChainPro.translateStreamRawRun,
        HinglishChainPro.translateStreamRaw]
  · cases sr <;> rfl
  · cases rc <;> rfl
  · intro e he
    subst he
    exact ⟨rfl, rfl, by simp [HinglishChainPro.chat, HinglishChainPro.handleError]⟩
  · have hpre := retryGo_log_has_attempt_line
      defaultProConfig.maxRetries defaultProConfig.retryDelay model text
      defaultProConfig.maxRetries 1 [] [] none (by decide)
    obtain ⟨t, ht⟩ := hpre
    show (HinglishChainPro.retryGo defaultProConfig.maxRetries
      defaultProConfig.retryDelay model text (defaultProConfig.maxRetries + 1)
      1 [] [] none).log ≠ []
    intro hnil
    rw [hnil] at ht
    simp at ht
  · intro e h
    exact retryGo_error_is_plain defaultProConfig.maxRetries
      defaultProConfig.retryDelay model text (defaultProConfig.maxRetries + 1)
      1 [] [] none e (fun _ => by decide) h

/-- Witness for C5's amended theorem: a successful `translate` call still
logs, and a concrete `chat` failure surfaces `handleError`'s plain `Error`
with its user-friendly message. -/
theorem pipeline_logging_witness :
    (HinglishChainPro.translate
      (.ok ⟨"hi", "english", 9/10, [], none⟩) "namaste").log ≠ [] ∧
    (HinglishChainPro.chat
      (.error ⟨"Error", some "ECONNRESET", "socket hang up"⟩)).result =
      .error ⟨"Error", none, "⚠️  Connection lost. Please try again."⟩ :=
  ⟨(pipeline_logging_and_typed_errors (.ok ⟨"hi", "english", 9/10, [], none⟩)
      (.error ⟨"Error", some "ECONNRESET", "socket hang up"⟩) (.ok []) "namaste"
      (fun _ => .ok ⟨"hi", "english", 9/10, [], none⟩)).1,
   ((pipeline_logging_and_typed_errors (.ok ⟨"hi", "english", 9/10, [], none⟩)
      (.error ⟨"Error", some "ECONNRESET", "socket hang up"⟩) (.ok []) "namaste"
      (fun _ => .ok ⟨"hi", "english", 9/10, [], none⟩)).2.2.2.2.2.1
      ⟨"Error", some "ECONNRESET", "socket hang up"⟩ rfl).1⟩
/-- Claim C6: a candidate missing the optional array field
`alternative_translations` validates successfully with that field defaulted
to the empty sequence, and a candidate missing the optional scalar field
`cultural_notes` validates with that field left absent; neither missing
field is an error. -/
theorem hinglishResponseSchema_optional_fields (ts dl notes alt : String)
    (c : ℚ) (h0 : 0 ≤ c) (h1 : c ≤ 1) :
    hinglishResponseSchema (.obj
      [("translated_text", .str ts), ("detected_language", .str dl),
       ("confidence", .num c), ("cultural_notes", .str notes)]) =
      .ok ⟨ts, dl, c, [], some notes⟩ ∧
    hinglishResponseSchema (.obj
      [("translated_text", .str ts), ("detected_language", .str dl),
       ("confidence", .num c),
       ("alternative_translations", .arr [.str alt])]) =
      .ok ⟨ts, dl, c, [alt], none⟩ := by
  have hc0 : ¬ (c < 0) := not_lt.mpr h0
  have hc1 : ¬ (1 < c) := not_lt.mpr h1
  constructor <;>
    simp +decide [hinglishResponseSchema, parseStringField, parseNumberField,
      parseStringArrayField, parseOptStringField, asStringList, lookupField,
      zipIssues, List.find?, hc0, hc1]

/-- Witness for C6 at a concrete candidate with confidence 0.5. -/
theorem hinglishResponseSchema_optional_fields_witness :
    hinglishResponseSchema (.obj
      [("translated_text", .str "hi"), ("detected_language", .str "hinglish"),
       ("confidence", .num (1/2)), ("cultural_notes", .str "informal")]) =
      .ok ⟨"hi", "hinglish", 1/2, [], some "informal"⟩ ∧
    hinglishResponseSchema (.obj
      [("translated_text", .str "hi"), ("detected_language", .str "hinglish"),
       ("confidence", .num (1/2)),
       ("alternative_translations", .arr [.str "hello"])]) =
      .ok ⟨"hi", "hinglish", 1/2, ["hello"], none⟩ :=
  hinglishResponseSchema_optional_fields "hi" "hinglish" "informal" "hello"
    (1/2) (by norm_num) (by norm_num)

/-- Claim C7: against the spec's scenario schema (`translated_text` a
string, `confidence` a number in the inclusive range `[0,1]`), the candidate
with confidence 0.92 validates to the corresponding value, while the
candidate with confidence 1.5 is rejected with a range violation naming the
field `"confidence"`. -/
theorem scenarioSchema_round_trip :
    scenarioSchema (.obj [("translated_text", .str "hi"),
      ("confidence", .num (92/100))]) = .ok ⟨"hi", 92/100⟩ ∧
    scenarioSchema (.obj [("translated_text", .str "hi"),
      ("confidence", .num (3/2))]) = .error [.tooBig "confidence" 1] := by
  constructor <;>
    simp +decide [scenarioSchema, parseStringField, parseNumberField,
      lookupField, zipIssues, List.find?] <;>
    norm_num

/-- Claim C8: `init` is idempotent for both chain classes — once the chain
is built by a first `init`, every later `init` (including the one made
implicitly by `translate`) returns without rebuilding, so the same chain
value is used for all subsequent invocations of that instance. -/
theorem init_idempotent_no_rebuild :
    (∀ s : HinglishChainState,
      HinglishChain.init (HinglishChain.init s) = HinglishChain.init s) ∧
    (∀ (s : HinglishChainState) (c : BuiltChain),
      s.chain = some c → HinglishChain.init s = s) ∧
    (∀ s : HinglishChainState,
      HinglishChain.translate s = (HinglishChain.init s, (HinglishChain.init s).chain)) ∧
    (∀ s : HinglishChainState, (HinglishChain.init s).chain.isSome) ∧
    (∀ s : HinglishChainProState,
      HinglishChainPro.init (HinglishChainPro.init s) = HinglishChainPro.init s) ∧
    (∀ (s : HinglishChainProState) (c : BuiltChain),
      s.chain = some c → HinglishChainPro.init s = s) := by
  refine ⟨?_, ?_, ?_, ?_, ?_, ?_⟩
  · intro s
    rcases s with ⟨m, ch⟩
    cases ch <;> simp [HinglishChain.init]
  · intro s c h
    rcases s with ⟨m, ch⟩
    cases ch <;> simp_all [HinglishChain.init]
  · intro s
    rfl
  · intro s
    rcases s with ⟨m, ch⟩
    cases ch <;> simp [HinglishChain.init]
  · intro s
    rcases s with ⟨m, ch, a, b, t⟩
    cases ch <;> simp [HinglishChainPro.init]
  · intro s c h
    rcases s with ⟨m, ch, a, b, t⟩
    cases ch <;> simp_all [HinglishChainPro.init]

/-- Witness for C8: an already-initialized instance is returned unchanged by
a second `init`. -/
theorem init_idempotent_witness :
    HinglishChain.init ⟨"kimi-k2.5:cloud",
      some ⟨"http://localhost:11434", "kimi-k2.5:cloud", 3/10⟩⟩ =
      ⟨"kimi-k2.5:cloud",
        some ⟨"http://localhost:11434", "kimi-k2.5:cloud", 3/10⟩⟩ :=
  init_idempotent_no_rebuild.2.1 _ _ rfl

/-- Claim C9: for every input, `analyzeSentiment` returns a sentiment among
`"positive"`, `"negative"`, `"neutral"`, an intensity in `{5,6,7,8}` and
confidence exactly 0.75; with both a positive-list and a negative-list
keyword present the sentiment stays `"neutral"` with intensity 5;
`should_celebrate` only when positive and `should_comfort` only when
negative. -/
theorem analyzeSentiment_range_and_flags (input : String) :
    ((analyzeSentiment input).sentiment = "positive" ∨
      (analyzeSentiment input).sentiment = "negative" ∨
      (analyzeSentiment input).sentiment = "neutral") ∧
    ((analyzeSentiment input).intensity = 5 ∨ (analyzeSentiment input).intensity = 6 ∨
      (analyzeSentiment input).intensity = 7 ∨ (analyzeSentiment input).intensity = 8) ∧
    (analyzeSentiment input).confidence = 3/4 ∧
    (hasKeyword positiveWords input = true → hasKeyword negativeWords input = true →
      (analyzeSentiment input).sentiment = "neutral" ∧
      (analyzeSentiment input).intensity = 5) ∧
    ((analyzeSentiment input).should_celebrate = true →
      (analyzeSentiment input).sentiment = "positive") ∧
    ((analyzeSentiment input).should_comfort = true →
      (analyzeSentiment input).sentiment = "negative") := by
  rcases hp : hasKeyword positiveWords input <;>
    rcases hn : hasKeyword negativeWords input <;>
    rcases he : hasKeyword emphasisWords input <;>
    simp [analyzeSentiment, hp, hn, he]

/-- Witness for C9 at `"mast thak"`, which contains a positive keyword
(`mast`) and a negative keyword (`thak`): the sentiment is neutral with
intensity 5. -/
theorem analyzeSentiment_mixed_witness :
    (analyzeSentiment "mast thak").sentiment = "neutral" ∧
    (analyzeSentiment "mast thak").intensity = 5 :=
  (analyzeSentiment_range_and_flags "mast thak").2.2.2.1 (by decide) (by decide)

/-- Claim C10: for every input, `analyzeHinglish` scores confidence as
`min(0.2 * k + 0.5, 0.9)` where `k` is the number of dictionary words found
in the lowercased input, so confidence always lies in `[0.5, 0.9]`; and when
no dictionary word is found the input is reported as not Hinglish with the
translation returned unchanged. -/
theorem analyzeHinglish_confidence_formula (input : String) :
    (analyzeHinglish input).confidence =
      min (((detectedHinglishWords input).length : ℚ) * (1/5) + 1/2) (9/10) ∧
    1/2 ≤ (analyzeHinglish input).confidence ∧
    (analyzeHinglish input).confidence ≤ 9/10 ∧
    ((detectedHinglishWords input).length = 0 →
      (analyzeHinglish input).is_hinglish = false ∧
      (analyzeHinglish input).translation = input) := by
  refine ⟨rfl, ?_, ?_, ?_⟩
  · show (1:ℚ)/2 ≤ min (((detectedHinglishWords input).length : ℚ) * (1/5) + 1/2) (9/10)
    refine le_min ?_ (by norm_num)
    have h : (0:ℚ) ≤ ((detectedHinglishWords input).length : ℚ) * (1/5) := by positivity
    linarith
  · exact min_le_right _ _
  · intro hk
    have h0 : detectedHinglishWords input = [] := List.length_eq_zero.mp hk
    simp [analyzeHinglish, h0]

/-- Witness for C10 at `"hello"`, which contains no dictionary word: not
Hinglish, translation unchanged. -/
theorem analyzeHinglish_no_keyword_witness :
    (analyzeHinglish "hello").is_hinglish = false ∧
    (analyzeHinglish "hello").translation = "hello" :=
  (analyzeHinglish_confidence_formula "hello").2.2.2 (by decide)
